import Mathlib

/-!
Verification of `src/get_notion_from_pdf.py` (script `cycle4_svt_dual_calls.py`).

The script loads `OPENAI_API_KEY` and `PDF_PATH` from the environment,
uploads a PDF, issues two chat-completion calls (GPT-4.1 in JSON mode and
GPT-4o with a structured-output JSON schema) and writes each response to a
separate `.json` file with `json.dump(..., ensure_ascii=False, indent=2)`.

The embedding below models Python values passed to `json.dump` by the
mutual inductive `Json`, the local filesystem by an association list of
regular files, the external OpenAI client (`client.files.create`,
`client.chat.completions.create`) by an explicit `Service` record, and the
whole run (module-level startup plus `__main__`) by the pure function
`script`, which also records a trace of side-effecting events.
-/

set_option autoImplicit false

/-- Left brace character, written via its code point. -/
def lbrace : Char := Char.ofNat 123

/-- Right brace character, written via its code point. -/
def rbrace : Char := Char.ofNat 125

mutual
/-- A Python value of the kinds `json.dump` serializes: `None`, booleans,
integers, strings, lists and string-keyed dicts.  Dicts are modelled as
ordered association lists (`JsonObj`). -/
inductive Json where
  | null : Json
  | bool : Bool → Json
  | num : Int → Json
  | str : String → Json
  | arr : JsonList → Json
  | obj : JsonObj → Json

inductive JsonList where
  | nil : JsonList
  | cons : Json → JsonList → JsonList

inductive JsonObj where
  | nil : JsonObj
  | cons : String → Json → JsonObj → JsonObj
end

/-- The elements of a `JsonList`, as a Lean list. -/
def JsonList.toList : JsonList → List Json
  | .nil => []
  | .cons h t => h :: t.toList

/-- Number of elements of a `JsonList`. -/
def JsonList.len : JsonList → Nat
  | .nil => 0
  | .cons _ t => t.len + 1

/-- First value bound to key `k` in a `JsonObj` (Python dicts have unique
keys; lookup takes the first binding). -/
def lookupJO (k : String) : JsonObj → Option Json
  | .nil => none
  | .cons k2 v t => if k = k2 then some v else lookupJO k t

/-- Four-digit lowercase hex rendering of a code point below 0x10000,
as Python uses in `\uXXXX` escapes. -/
def hexDigit (n : Nat) : Char :=
  if n < 10 then Char.ofNat (48 + n) else Char.ofNat (97 + (n - 10))

/-- Render `n < 0x10000` as four hex digits. -/
def hex4 (n : Nat) : String :=
  String.mk [hexDigit (n / 4096 % 16), hexDigit (n / 256 % 16),
             hexDigit (n / 16 % 16), hexDigit (n % 16)]

/-- Escaping of one character inside a JSON string literal, as done by
Python `json` with `ensure_ascii=False`: `"` and backslash are escaped,
control characters use the short escapes or `\uXXXX`, everything else
(including non-ASCII) is kept as is. -/
def escChar (c : Char) : String :=
  if c = Char.ofNat 34 then "\\\""
  else if c = Char.ofNat 92 then "\\\\"
  else if c = Char.ofNat 10 then "\\n"
  else if c = Char.ofNat 9 then "\\t"
  else if c = Char.ofNat 13 then "\\r"
  else if c = Char.ofNat 8 then "\\b"
  else if c = Char.ofNat 12 then "\\f"
  else if c.toNat < 32 then "\\u" ++ hex4 c.toNat
  else String.mk [c]

/-- A JSON string literal for `s`, Python style (`ensure_ascii=False`). -/
def dumpStr (s : String) : String :=
  "\"" ++ String.join (s.data.map escChar) ++ "\""

/-- `n` spaces. -/
def sp (n : Nat) : String := String.mk (List.replicate n ' ')

mutual
/-- Serialization of a value as Python `json.dump(v, f, ensure_ascii=False,
indent=2)` produces it: nonempty containers put every item on its own line,
indented two spaces per nesting level; the key separator is `": "` and the
item separator is `",\n"`; empty containers print as `[]` and `\x7b\x7d`. -/
def dumpJson : Json → Nat → String
  | .null, _ => "null"
  | .bool true, _ => "true"
  | .bool false, _ => "false"
  | .num n, _ => toString n
  | .str s, _ => dumpStr s
  | .arr .nil, _ => "[]"
  | .arr (.cons h t), lvl =>
      "[\n" ++ dumpList (.cons h t) (lvl + 1) ++ "\n" ++ sp (2 * lvl) ++ "]"
  | .obj .nil, _ => "\x7b\x7d"
  | .obj (.cons k v t), lvl =>
      "\x7b\n" ++ dumpObj (.cons k v t) (lvl + 1) ++ "\n" ++ sp (2 * lvl) ++ "\x7d"

def dumpList : JsonList → Nat → String
  | .nil, _ => ""
  | .cons h .nil, lvl => sp (2 * lvl) ++ dumpJson h lvl
  | .cons h (.cons h2 t), lvl =>
      sp (2 * lvl) ++ dumpJson h lvl ++ ",\n" ++ dumpList (.cons h2 t) lvl

def dumpObj : JsonObj → Nat → String
  | .nil, _ => ""
  | .cons k v .nil, lvl => sp (2 * lvl) ++ dumpStr k ++ ": " ++ dumpJson v lvl
  | .cons k v (.cons k2 v2 t), lvl =>
      sp (2 * lvl) ++ dumpStr k ++ ": " ++ dumpJson v lvl ++ ",\n" ++
        dumpObj (.cons k2 v2 t) lvl
end

/-- `json.dump(v, f, ensure_ascii=False, indent=2)` writes exactly this
string to `f` (source lines 104-105 and 193-194). -/
def json_dump (v : Json) : String := dumpJson v 0

example : json_dump (.str "abc") = "\"abc\"" := by decide
example : json_dump (.obj (.cons "a" (.num 1) .nil)) = "\x7b\n  \"a\": 1\n\x7d" := by decide
example : json_dump (.obj .nil) = "\x7b\x7d" := by decide

/-- JSON whitespace. -/
def isWsChar (c : Char) : Bool := c = ' ' || c = '\n' || c = '\t' || c = '\r'

/-- Drop leading JSON whitespace. -/
def skipWs (cs : List Char) : List Char := cs.dropWhile isWsChar

/-- Body of a JSON string literal (after the opening quote): plain
characters and the common escapes; returns the decoded string and the
input after the closing quote. -/
def parseStrBody : Nat → List Char → Option (String × List Char)
  | 0, _ => none
  | fuel + 1, cs =>
    match cs with
    | [] => none
    | c :: rest =>
      if c = Char.ofNat 34 then some ("", rest)
      else if c = Char.ofNat 92 then
        match rest with
        | [] => none
        | e :: rest2 =>
          let dec : Option Char :=
            if e = Char.ofNat 34 then some (Char.ofNat 34)
            else if e = Char.ofNat 92 then some (Char.ofNat 92)
            else if e = '/' then some '/'
            else if e = 'n' then some (Char.ofNat 10)
            else if e = 't' then some (Char.ofNat 9)
            else if e = 'r' then some (Char.ofNat 13)
            else if e = 'b' then some (Char.ofNat 8)
            else if e = 'f' then some (Char.ofNat 12)
            else none
          match dec with
          | none => none
          | some d =>
            match parseStrBody fuel rest2 with
            | some (s, r) => some (String.mk (d :: s.data), r)
            | none => none
      else if c.toNat < 32 then none
      else
        match parseStrBody fuel rest with
        | some (s, r) => some (String.mk (c :: s.data), r)
        | none => none

/-- Consume a run of decimal digits, accumulating their value. -/
def takeDigits (acc : Nat) : List Char → Nat × List Char
  | [] => (acc, [])
  | c :: rest =>
    if c.isDigit then takeDigits (acc * 10 + (c.toNat - 48)) rest
    else (acc, c :: rest)

mutual
/-- Modelled from the spec: the `parse it as JSON` step of the Result
Validator/Writer (section 4.3), i.e. `json.loads` semantics for the JSON
fragment of objects, arrays, strings with common escapes, integers and
`true`/`false`/`null`.  The repository code itself never parses response
text as JSON (it passes the response value straight to `json.dump`); this
function exists only to state the spec claims that talk about parsing. -/
def parseVal : Nat → List Char → Option (Json × List Char)
  | 0, _ => none
  | fuel + 1, cs0 =>
    match skipWs cs0 with
    | [] => none
    | c :: rest =>
      if c = lbrace then parseObjItems fuel rest
      else if c = '[' then parseArrItems fuel rest
      else if c = Char.ofNat 34 then
        match parseStrBody (fuel + 1) rest with
        | some (s, r) => some (.str s, r)
        | none => none
      else if c = 't' then
        match rest with
        | 'r' :: 'u' :: 'e' :: r => some (.bool true, r)
        | _ => none
      else if c = 'f' then
        match rest with
        | 'a' :: 'l' :: 's' :: 'e' :: r => some (.bool false, r)
        | _ => none
      else if c = 'n' then
        match rest with
        | 'u' :: 'l' :: 'l' :: r => some (.null, r)
        | _ => none
      else if c = '-' then
        match rest with
        | d :: _ =>
          if d.isDigit then
            let p := takeDigits 0 rest
            some (.num (-(p.1 : Int)), p.2)
          else none
        | [] => none
      else if c.isDigit then
        let p := takeDigits 0 (c :: rest)
        some (.num (p.1 : Int), p.2)
      else none

/-- Array contents, just after the opening bracket. -/
def parseArrItems : Nat → List Char → Option (Json × List Char)
  | 0, _ => none
  | fuel + 1, cs =>
    match skipWs cs with
    | [] => none
    | c :: rest =>
      if c = ']' then some (.arr .nil, rest)
      else
        match parseElems fuel (c :: rest) with
        | some (xs, r) => some (.arr xs, r)
        | none => none

/-- One or more comma-separated array elements, up to the closing bracket. -/
def parseElems : Nat → List Char → Option (JsonList × List Char)
  | 0, _ => none
  | fuel + 1, cs =>
    match parseVal fuel cs with
    | some (v, r) =>
      match skipWs r with
      | ',' :: r2 =>
        match parseElems fuel r2 with
        | some (tl, r3) => some (.cons v tl, r3)
        | none => none
      | ']' :: r2 => some (.cons v .nil, r2)
      | _ => none
    | none => none

/-- Object contents, just after the opening brace. -/
def parseObjItems : Nat → List Char → Option (Json × List Char)
  | 0, _ => none
  | fuel + 1, cs =>
    match skipWs cs with
    | [] => none
    | c :: rest =>
      if c = rbrace then some (.obj .nil, rest)
      else
        match parsePairs fuel (c :: rest) with
        | some (kvs, r) => some (.obj kvs, r)
        | none => none

/-- One or more comma-separated `"key": value` pairs, up to the closing
brace. -/
def parsePairs : Nat → List Char → Option (JsonObj × List Char)
  | 0, _ => none
  | fuel + 1, cs =>
    match skipWs cs with
    | [] => none
    | c :: rest =>
      if c = Char.ofNat 34 then
        match parseStrBody (fuel + 1) rest with
        | some (k, r1) =>
          match skipWs r1 with
          | ':' :: r2 =>
            match parseVal fuel r2 with
            | some (v, r3) =>
              match skipWs r3 with
              | ',' :: r4 =>
                match parsePairs fuel r4 with
                | some (tl, r5) => some (.cons k v tl, r5)
                | none => none
              | c2 :: r4 =>
                if c2 = rbrace then some (.cons k v .nil, r4) else none
              | [] => none
            | none => none
          | _ => none
        | none => none
      else none
end

/-- Modelled from the spec: whole-input JSON decoding (`json.loads`): a
single value surrounded by optional whitespace; anything else is a parse
failure (`none`). -/
def parseJson (s : String) : Option Json :=
  match parseVal (s.data.length + 2) s.data with
  | some (v, r) => if skipWs r = [] then some v else none
  | none => none

example : parseJson "\x7b\x7d" = some (.obj .nil) := rfl
example : parseJson "not json" = none := rfl
example : parseJson "\"\x7b\x7d\"" = some (.str "\x7b\x7d") := rfl
example : parseJson " [1, -2] " = some (.arr (.cons (.num 1) (.cons (.num (-2)) .nil))) := rfl
example : parseJson "\x7b\"a\": true\x7d" = some (.obj (.cons "a" (.bool true) .nil)) := rfl

mutual
/-- The JSON Schema fragment used by the `schema` constant of
`call_gpt4o_structured` (source lines 117-164): string schemas with an
optional `enum`, array schemas with an `items` schema and a `minItems`
bound (0 when absent, the JSON Schema default), and object schemas with a
`required` key list and a `properties` map. -/
inductive Schema where
  | strTy : Option (List String) → Schema
  | arrTy : Schema → Nat → Schema
  | objTy : List String → SProps → Schema

/-- The `properties` map of an object schema. -/
inductive SProps where
  | nil : SProps
  | cons : String → Schema → SProps → SProps
end

mutual
/-- Modelled from the spec: JSON Schema validation for the fragment above
(`type`, `enum`, `required`, `properties`, `items`, `minItems`), the
authoritative conformance check section 4.3 and section 8 of the spec
describe.  The repository code performs no local validation; this function
exists to state what conformance to the declared schema implies and which
values violate it. -/
def validate : Schema → Json → Bool
  | .strTy oenum, .str s =>
      match oenum with
      | none => true
      | some es => es.contains s
  | .strTy _, _ => false
  | .arrTy items minI, .arr xs => validateItems items xs && decide (minI ≤ xs.len)
  | .arrTy _ _, _ => false
  | .objTy req props, .obj kvs =>
      req.all (fun k => (lookupJO k kvs).isSome) && validateProps props kvs
  | .objTy _ _, _ => false

/-- Every element of the array validates against the item schema. -/
def validateItems : Schema → JsonList → Bool
  | _, .nil => true
  | s, .cons h t => validate s h && validateItems s t

/-- Each declared property, when present in the object, validates against
its schema (JSON Schema `properties` does not force presence). -/
def validateProps : SProps → JsonObj → Bool
  | .nil, _ => true
  | .cons k sch tl, kvs =>
      (match lookupJO k kvs with
       | none => true
       | some v => validate sch v) && validateProps tl kvs
end

/-- The `classes` sub-schema (source lines 145-152): an array of strings
drawn from `\x7b"4e", "3e", "5e"\x7d`, with `minItems: 1`. -/
def classesSchema : Schema := .arrTy (.strTy (some ["4e", "3e", "5e"])) 1

/-- The notion sub-schema (source lines 139-158): an object requiring
`nom_notion`, `description`, `classes` and `prerequis`. -/
def notionSchema : Schema :=
  .objTy ["nom_notion", "description", "classes", "prerequis"]
    (.cons "nom_notion" (.strTy none)
      (.cons "description" (.strTy none)
        (.cons "classes" classesSchema
          (.cons "prerequis" (.arrTy (.strTy none) 0) .nil))))

/-- The chapter sub-schema (source lines 132-161): an object requiring
`nom_chapitre` and `notions`. -/
def chapitreSchema : Schema :=
  .objTy ["nom_chapitre", "notions"]
    (.cons "nom_chapitre" (.strTy none)
      (.cons "notions" (.arrTy notionSchema 0) .nil))

/-- The top-level `schema` constant of `call_gpt4o_structured` (source
lines 117-164): requires `matiere`, `cycle` and `chapitres`; `matiere` is
enum-pinned to `"SVT"` and `cycle` to `"cycle 4"`.  (The schema `title`
has no validation semantics and is not represented.) -/
def programmeSchema : Schema :=
  .objTy ["matiere", "cycle", "chapitres"]
    (.cons "matiere" (.strTy (some ["SVT"]))
      (.cons "cycle" (.strTy (some ["cycle 4"]))
        (.cons "chapitres" (.arrTy chapitreSchema 0) .nil)))

/-- The environment as `load_dotenv` + `os.getenv` expose it (source
lines 26-30): the two variables the script reads, each possibly absent. -/
structure Env where
  OPENAI_API_KEY : Option String
  PDF_PATH : Option String

/-- The exceptions the script can raise or propagate: `RuntimeError` from
the startup check (line 33), `FileNotFoundError` from `upload_pdf`
(line 44, carrying the offending path), and any exception escaping the
OpenAI client calls. -/
inductive PyErr where
  | runtimeError : PyErr
  | fileNotFoundError : String → PyErr
  | serviceError : String → PyErr
deriving DecidableEq

/-- The keyword arguments of a `client.chat.completions.create` call as
the script builds them (source lines 93-100 and 181-189). -/
structure ChatRequest where
  model : String
  messages : List (String × String)
  user_data : String
  temperature : Int
  max_tokens : Nat
  response_format : String
  json_schema : Option Schema

/-- The external OpenAI client, as an explicit collaborator: `filesCreate`
models `client.files.create` applied to the PDF bytes and returns
`resp["id"]`; `chatCreate` models `client.chat.completions.create` and
returns `response.choices[0].message.content` (a Python value, possibly a
raw string).  Both may raise. -/
structure Service where
  filesCreate : String → Except PyErr String
  chatCreate : ChatRequest → Except PyErr Json

/-- The local filesystem: regular files (path, content) and directories
(paths that exist but are not regular files). -/
structure FS where
  files : List (String × String)
  dirs : List String

/-- First content bound to a path. -/
def lookupFile : List (String × String) → String → Option String
  | [], _ => none
  | (k, v) :: rest, q => if q = k then some v else lookupFile rest q

/-- `os.path.isfile` (source line 43): true exactly for regular files. -/
def os_path_isfile (fs : FS) (p : String) : Bool := (lookupFile fs.files p).isSome

/-- `open(p, "w")` followed by a write: creates or silently truncates and
replaces the file at `p`. -/
def writeFS (fs : FS) (p c : String) : FS := { fs with files := (p, c) :: fs.files }

/-- The side-effecting operations a run performs, in order: `open(p,"rb")`,
`open(p,"w",encoding=enc)`, the write of the dumped JSON, the upload, and
the chat-completion calls. -/
inductive Event where
  | openR : String → Event
  | openW : String → String → Event
  | write : String → String → Event
  | filesCreate : String → Event
  | chatCreate : ChatRequest → Event

/-- `upload_pdf` (source lines 39-50): raise `FileNotFoundError` unless
`os.path.isfile(pdf_path)`, else open the file read-only, upload it and
return `resp["id"]`. -/
def upload_pdf (fs : FS) (svc : Service) (pdf_path : String) :
    List Event × Except PyErr String :=
  if os_path_isfile fs pdf_path then
    let content := (lookupFile fs.files pdf_path).getD ""
    match svc.filesCreate content with
    | .ok respId => ([.openR pdf_path, .filesCreate content], .ok respId)
    | .error e => ([.openR pdf_path, .filesCreate content], .error e)
  else ([], .error (.fileNotFoundError pdf_path))

/-- The Call A message list (source lines 59-91): the JSON-only system
instruction describing the expected structure in prose, and the user
request. -/
def messagesA : List (String × String) :=
  [("system",
    "Tu es un assistant expert en SVT. À partir du PDF fourni, " ++
    "RENVOIE UNIQUEMENT un objet JSON valide respectant cette structure :\n" ++
    "  \x7b\n" ++
    "    \"matiere\": \"SVT\",\n" ++
    "    \"cycle\": \"cycle 4\",\n" ++
    "    \"chapitres\": [\n" ++
    "      \x7b\n" ++
    "        \"nom_chapitre\": string,\n" ++
    "        \"notions\": [\n" ++
    "          \x7b\n" ++
    "            \"nom_notion\": string,\n" ++
    "            \"description\": string,\n" ++
    "            \"classes\": [\"4e\", \"3e\", \"5e\", ...],\n" ++
    "            \"prerequis\": [string, ...]\n" ++
    "          \x7d,\n" ++
    "          ...\n" ++
    "        ]\n" ++
    "      \x7d,\n" ++
    "      ...\n" ++
    "    ]\n" ++
    "  \x7d\n" ++
    "RIEN D’AUTRE : pas de commentaires, pas d’explications. Juste le JSON."),
   ("user", "Analyse le fichier PDF et renvoie le JSON demandé.")]

/-- The Call B message list (source lines 166-179). -/
def messagesB : List (String × String) :=
  [("system",
    "Tu es un assistant expert en SVT. À partir du PDF fourni, " ++
    "renvoie EXACTEMENT un JSON qui valide contre le schéma JSON ci-dessus. " ++
    "Pas de texte en dehors du JSON. Tout doit respecter ce schéma."),
   ("user", "Analyse le fichier PDF et renvoie le JSON conforme au schéma.")]

/-- The Call A request (source lines 93-100): GPT-4.1, JSON mode,
temperature 0, max_tokens 8000, no schema. -/
def requestA (file_id : String) : ChatRequest :=
  { model := "gpt-4.1"
    messages := messagesA
    user_data := file_id
    temperature := 0
    max_tokens := 8000
    response_format := "json"
    json_schema := none }

/-- The Call B request (source lines 181-189): GPT-4o with structured
outputs, temperature 0, max_tokens 8000, carrying the schema constant. -/
def requestB (file_id : String) : ChatRequest :=
  { model := "gpt-4o-2024-08-06"
    messages := messagesB
    user_data := file_id
    temperature := 0
    max_tokens := 8000
    response_format := "json_schema"
    json_schema := some programmeSchema }

/-- `call_gpt4_1_json_mode` (source lines 53-107): issue the Call A
request; on success, write `json.dump` of `response.choices[0].message.content`
to `output_path` (UTF-8, `indent=2`); an exception from the client
propagates and nothing is written. -/
def call_gpt4_1_json_mode (svc : Service) (file_id output_path : String) (fs : FS) :
    List Event × FS × Option PyErr :=
  match svc.chatCreate (requestA file_id) with
  | .error e => ([.chatCreate (requestA file_id)], fs, some e)
  | .ok output_json =>
      ([.chatCreate (requestA file_id), .openW output_path "utf-8",
        .write output_path (json_dump output_json)],
       writeFS fs output_path (json_dump output_json), none)

/-- `call_gpt4o_structured` (source lines 110-196): same shape as Call A
but with the Call B request. -/
def call_gpt4o_structured (svc : Service) (file_id output_path : String) (fs : FS) :
    List Event × FS × Option PyErr :=
  match svc.chatCreate (requestB file_id) with
  | .error e => ([.chatCreate (requestB file_id)], fs, some e)
  | .ok output_json =>
      ([.chatCreate (requestB file_id), .openW output_path "utf-8",
        .write output_path (json_dump output_json)],
       writeFS fs output_path (json_dump output_json), none)

/-- Is this character a path separator? -/
def isSlash (c : Char) : Bool := c = '/'

/-- `os.path.basename` for POSIX paths: everything after the last slash. -/
def basename (p : String) : String :=
  String.mk ((p.data.reverse.takeWhile (fun c => !isSlash c)).reverse)

/-- Is this character a dot? -/
def isDot (c : Char) : Bool := c = '.'

/-- `os.path.splitext` on a slash-free name: split before the last dot,
unless every character before it is a dot (so ".bashrc" does not split). -/
def splitext (s : String) : String × String :=
  let rcs := s.data.reverse
  let extRev := rcs.takeWhile (fun c => !isDot c)
  match rcs.dropWhile (fun c => !isDot c) with
  | [] => (s, "")
  | _ :: stemRev =>
    if stemRev.reverse.all isDot then (s, "")
    else (String.mk stemRev.reverse, String.mk ('.' :: extRev.reverse))

example : splitext "mon_programme.pdf" = ("mon_programme", ".pdf") := by decide
example : splitext ".bashrc" = (".bashrc", "") := by decide
example : splitext "a.b.c" = ("a.b", ".c") := by decide

/-- `base_name` (source line 205):
`os.path.splitext(os.path.basename(PDF_PATH))[0]`. -/
def base_name_of (pdf_path : String) : String := (splitext (basename pdf_path)).1

/-- The Call A output path (source line 206). -/
def out1_of (pdf_path : String) : String := base_name_of pdf_path ++ "_gpt4-1_jsonmode.json"

/-- The Call B output path (source line 211). -/
def out2_of (pdf_path : String) : String := base_name_of pdf_path ++ "_gpt4o_structured.json"

/-- The observable outcome of one run: the ordered event trace, the final
local filesystem, and the exception that terminated the run, if any. -/
structure RunResult where
  trace : List Event
  fs : FS
  err : Option PyErr

set_option linter.unusedVariables false in
/-- The whole program: module-level startup (source lines 26-36) followed
by the `__main__` block (source lines 199-215).  `argv` is the process
argument vector; the script never reads `sys.argv`, so it is unused — it
is a parameter only so that claims about command-line behaviour can be
stated.  Control flow is strictly sequential: upload, Call A, Call B; an
exception at any step terminates the run there, leaving earlier effects in
place. -/
def script (env : Env) (argv : List String) (fs0 : FS) (svc : Service) : RunResult :=
  match env.OPENAI_API_KEY, env.PDF_PATH with
  | some _, some pdf_path =>
    match upload_pdf fs0 svc pdf_path with
    | (ev0, .error e) => ⟨ev0, fs0, some e⟩
    | (ev0, .ok file_id) =>
      match call_gpt4_1_json_mode svc file_id (out1_of pdf_path) fs0 with
      | (ev1, fs1, some e) => ⟨ev0 ++ ev1, fs1, some e⟩
      | (ev1, fs1, none) =>
        match call_gpt4o_structured svc file_id (out2_of pdf_path) fs1 with
        | (ev2, fs2, r2) => ⟨ev0 ++ ev1 ++ ev2, fs2, r2⟩
  | _, _ => ⟨[], fs0, some .runtimeError⟩


/-- A deterministic stub service, as section 8 of the spec prescribes for
tests: the upload returns a fixed file id, Call A (model `gpt-4.1`) gets
outcome `ra` and Call B gets outcome `rb`. -/
def stubService (ra rb : Except PyErr Json) : Service :=
  ⟨fun _ => .ok "file-1",
   fun req => if req.model = "gpt-4.1" then ra else rb⟩

/-! Helper lemmas about paths, lookups and the serializer. -/

theorem mem_takeWhile {α : Type} {p : α → Bool} {a : α} :
    ∀ {l : List α}, a ∈ l.takeWhile p → p a = true := by
  intro l
  induction l with
  | nil => intro h; simp [List.takeWhile] at h
  | cons x xs ih =>
    intro h
    rw [List.takeWhile] at h
    rcases hx : p x with _ | _
    · rw [hx] at h; simp at h
    · rw [hx] at h
      rcases List.mem_cons.mp h with rfl | hmem
      · exact hx
      · exact ih hmem

theorem dropWhile_head {α : Type} (p : α → Bool) {c : α} {tl : List α} :
    ∀ {l : List α}, l.dropWhile p = c :: tl → p c = false := by
  intro l
  induction l with
  | nil => intro h; simp [List.dropWhile] at h
  | cons x xs ih =>
    intro h
    rw [List.dropWhile] at h
    rcases hx : p x with _ | _
    · rw [hx] at h
      simp only [cond_false] at h
      cases h
      exact hx
    · rw [hx] at h
      simp only [cond_true] at h
      exact ih h

theorem splitext_stem_append_ext (s : String) :
    ((splitext s).1).data ++ ((splitext s).2).data = s.data := by
  have hsplit : s.data.reverse.takeWhile (fun c => !isDot c) ++
      s.data.reverse.dropWhile (fun c => !isDot c) = s.data.reverse :=
    List.takeWhile_append_dropWhile _ _
  rcases h : s.data.reverse.dropWhile (fun c => !isDot c) with _ | ⟨c, stemRev⟩
  · simp [splitext, h]
  · have hc : (!isDot c) = false := dropWhile_head (fun c => !isDot c) h
    have hc2 : c = '.' := by simpa [isDot] using hc
    subst hc2
    rw [h] at hsplit
    have hs : stemRev.reverse ++
        '.' :: (s.data.reverse.takeWhile (fun c => !isDot c)).reverse = s.data := by
      have h2 := congrArg List.reverse hsplit
      rw [List.reverse_append, List.reverse_reverse, List.reverse_cons] at h2
      simpa [List.append_assoc] using h2
    by_cases hall : stemRev.reverse.all isDot
    · simp [splitext, h, hall]
    · simp only [splitext, h, hall, Bool.false_eq_true, if_false]
      exact hs

theorem splitext_ext_shape (s : String) :
    ((splitext s).2 = "" ∧ (splitext s).1 = s) ∨
      ∃ t, ((splitext s).2).data = '.' :: t := by
  rcases h : s.data.reverse.dropWhile (fun c => !isDot c) with _ | ⟨c, stemRev⟩
  · left; constructor <;> simp [splitext, h]
  · by_cases hall : stemRev.reverse.all isDot
    · left; constructor <;> simp [splitext, h, hall]
    · right
      refine ⟨(s.data.reverse.takeWhile (fun c => !isDot c)).reverse, ?_⟩
      simp [splitext, h, hall]

theorem basename_no_slash (p : String) : '/' ∉ (basename p).data := by
  intro hmem
  have hmem2 : '/' ∈ p.data.reverse.takeWhile (fun c => !isSlash c) := by
    simpa [basename] using hmem
  have := mem_takeWhile hmem2
  simp [isSlash] at this

theorem basename_eq_self {p : String} (h : '/' ∉ p.data) : basename p = p := by
  have htw : p.data.reverse.takeWhile (fun c => !isSlash c) = p.data.reverse := by
    rw [List.takeWhile_eq_self_iff]
    intro x hx
    have hxp : x ∈ p.data := by simpa using hx
    have hne : x ≠ '/' := fun he => h (he ▸ hxp)
    simp [isSlash, hne]
  apply String.ext
  simp [basename, htw]

theorem mem_stem_of_splitext {a : Char} {s : String}
    (h : a ∈ ((splitext s).1).data) : a ∈ s.data := by
  rw [← splitext_stem_append_ext s]
  exact List.mem_append_left _ h

theorem base_name_no_slash (p : String) : '/' ∉ (base_name_of p).data := by
  intro hmem
  exact basename_no_slash p (mem_stem_of_splitext hmem)

theorem out_ne_pdf {p sfx : String} (hlen : 0 < sfx.length)
    (hslash : '/' ∉ sfx.data) (hdot : ∀ t, sfx.data ≠ '.' :: t) :
    base_name_of p ++ sfx ≠ p := by
  intro he
  by_cases hsl : '/' ∈ p.data
  · have hmem : '/' ∈ (base_name_of p ++ sfx).data := by rw [he]; exact hsl
    rw [String.data_append] at hmem
    rcases List.mem_append.mp hmem with h1 | h2
    · exact base_name_no_slash p h1
    · exact hslash h2
  · have hb : basename p = p := basename_eq_self hsl
    rcases splitext_ext_shape (basename p) with ⟨_, hstem⟩ | ⟨t, ht⟩
    · have hbn : base_name_of p = p := by rw [base_name_of, hstem, hb]
      rw [hbn] at he
      have hl := congrArg String.length he
      rw [String.length_append] at hl
      omega
    · have hsae := splitext_stem_append_ext (basename p)
      have hed : (base_name_of p).data ++ sfx.data = p.data := by
        rw [← String.data_append, he]
      rw [base_name_of] at hed
      rw [hb] at hsae hed ht
      have hcan : sfx.data = ((splitext p).2).data :=
        List.append_cancel_left (hed.trans hsae.symm)
      rw [ht] at hcan
      exact hdot t hcan

theorem out1_ne_out2 (p : String) : out1_of p ≠ out2_of p := by
  intro he
  have hl := congrArg String.length he
  rw [out1_of, out2_of, String.length_append, String.length_append] at hl
  have e1 : ("_gpt4-1_jsonmode.json" : String).length = 21 := by decide
  have e2 : ("_gpt4o_structured.json" : String).length = 22 := by decide
  omega

theorem out1_ne_pdf (p : String) : out1_of p ≠ p := by
  apply @out_ne_pdf p "_gpt4-1_jsonmode.json" (by decide) (by decide)
  intro t ht
  cases ht

theorem out2_ne_pdf (p : String) : out2_of p ≠ p := by
  apply @out_ne_pdf p "_gpt4o_structured.json" (by decide) (by decide)
  intro t ht
  cases ht

theorem lookupFile_writeFS (fs : FS) (p c q : String) :
    lookupFile (writeFS fs p c).files q =
      if q = p then some c else lookupFile fs.files q := by
  simp [writeFS, lookupFile]

theorem JsonList.inductionOn {P : JsonList → Prop} (xs : JsonList)
    (nil : P .nil) (cons : ∀ j t, P t → P (.cons j t)) : P xs := by
  suffices h : ∀ n xs2, JsonList.len xs2 = n → P xs2 from h xs.len xs rfl
  intro n
  induction n with
  | zero =>
    intro xs2 hlen
    cases xs2 with
    | nil => exact nil
    | cons j t => simp [JsonList.len] at hlen
  | succ m ih =>
    intro xs2 hlen
    cases xs2 with
    | nil => exact nil
    | cons j t =>
      apply cons
      apply ih
      simpa [JsonList.len] using hlen

theorem JsonList.toList_length (xs : JsonList) : xs.toList.length = xs.len := by
  induction xs using JsonList.inductionOn with
  | nil => rfl
  | cons h t ih => simp [JsonList.toList, JsonList.len, ih]

theorem validateItems_sound {s : Schema} :
    ∀ {xs : JsonList}, validateItems s xs = true →
      ∀ x ∈ xs.toList, validate s x = true := by
  intro xs
  induction xs using JsonList.inductionOn with
  | nil => intro _ x hx; simp [JsonList.toList] at hx
  | cons hd tl ih =>
    intro hv x hx
    simp only [validateItems, Bool.and_eq_true] at hv
    rcases List.mem_cons.mp (by simpa [JsonList.toList] using hx) with rfl | hmem
    · exact hv.1
    · exact ih hv.2 x hmem

theorem validate_strEnum {es : List String} {v : Json}
    (h : validate (.strTy (some es)) v = true) :
    ∃ s, v = .str s ∧ s ∈ es := by
  cases v with
  | str s =>
    refine ⟨s, rfl, ?_⟩
    simp only [validate] at h
    simpa using h
  | null => simp [validate] at h
  | bool b => simp [validate] at h
  | num n => simp [validate] at h
  | arr xs => simp [validate] at h
  | obj kvs => simp [validate] at h

theorem validate_arr {it : Schema} {n : Nat} {v : Json}
    (h : validate (.arrTy it n) v = true) :
    ∃ xs, v = .arr xs ∧ validateItems it xs = true ∧ n ≤ xs.len := by
  cases v with
  | arr xs =>
    simp only [validate, Bool.and_eq_true, decide_eq_true_eq] at h
    exact ⟨xs, rfl, h.1, h.2⟩
  | null => simp [validate] at h
  | bool b => simp [validate] at h
  | num n => simp [validate] at h
  | str s => simp [validate] at h
  | obj kvs => simp [validate] at h

theorem validate_obj {req : List String} {ps : SProps} {v : Json}
    (h : validate (.objTy req ps) v = true) :
    ∃ kvs, v = .obj kvs ∧ (∀ k ∈ req, (lookupJO k kvs).isSome = true) ∧
      validateProps ps kvs = true := by
  cases v with
  | obj kvs =>
    simp only [validate, Bool.and_eq_true, List.all_eq_true] at h
    exact ⟨kvs, rfl, h.1, h.2⟩
  | null => simp [validate] at h
  | bool b => simp [validate] at h
  | num n => simp [validate] at h
  | str s => simp [validate] at h
  | arr xs => simp [validate] at h

theorem validateProps_cons {k : String} {sch : Schema} {tl : SProps} {kvs : JsonObj}
    (h : validateProps (.cons k sch tl) kvs = true) :
    (∀ v, lookupJO k kvs = some v → validate sch v = true) ∧
      validateProps tl kvs = true := by
  simp only [validateProps, Bool.and_eq_true] at h
  refine ⟨?_, h.2⟩
  intro v hv
  have h1 := h.1
  rw [hv] at h1
  simpa using h1

/-- Shape that conformance to the declared schema forces on a value:
`matiere` is exactly `"SVT"`, `cycle` exactly `"cycle 4"`, and every entry
of every notion's `classes` array is one of `"4e"`, `"3e"`, `"5e"`, with at
least one entry. -/
def PinnedProgramme (v : Json) : Prop :=
  ∃ kvs, v = .obj kvs ∧
    lookupJO "matiere" kvs = some (.str "SVT") ∧
    lookupJO "cycle" kvs = some (.str "cycle 4") ∧
    ∃ chs, lookupJO "chapitres" kvs = some (.arr chs) ∧
      ∀ ch ∈ chs.toList, ∃ ckvs, ch = .obj ckvs ∧
        ∃ ns, lookupJO "notions" ckvs = some (.arr ns) ∧
          ∀ nt ∈ ns.toList, ∃ nkvs, nt = .obj nkvs ∧
            ∃ cls, lookupJO "classes" nkvs = some (.arr cls) ∧
              cls.toList ≠ [] ∧
              ∀ c ∈ cls.toList, c = .str "4e" ∨ c = .str "3e" ∨ c = .str "5e"

theorem classes_sound {v : Json} (h : validate classesSchema v = true) :
    ∃ cls, v = .arr cls ∧ cls.toList ≠ [] ∧
      ∀ c ∈ cls.toList, c = .str "4e" ∨ c = .str "3e" ∨ c = .str "5e" := by
  rw [classesSchema] at h
  obtain ⟨cls, rfl, hitems, hmin⟩ := validate_arr h
  refine ⟨cls, rfl, ?_, ?_⟩
  · intro hnil
    have hlen := JsonList.toList_length cls
    rw [hnil] at hlen
    simp at hlen
    omega
  · intro c hc
    obtain ⟨s, rfl, hs⟩ := validate_strEnum (validateItems_sound hitems c hc)
    simp only [List.mem_cons, List.mem_singleton] at hs
    rcases hs with rfl | rfl | rfl | hfalse
    · left; rfl
    · right; left; rfl
    · right; right; rfl
    · simp at hfalse

theorem notion_sound {v : Json} (h : validate notionSchema v = true) :
    ∃ nkvs, v = .obj nkvs ∧
      ∃ cls, lookupJO "classes" nkvs = some (.arr cls) ∧
        cls.toList ≠ [] ∧
        ∀ c ∈ cls.toList, c = .str "4e" ∨ c = .str "3e" ∨ c = .str "5e" := by
  rw [notionSchema] at h
  obtain ⟨nkvs, rfl, hreq, hprops⟩ := validate_obj h
  obtain ⟨vc, hvc⟩ := Option.isSome_iff_exists.mp (hreq "classes" (by simp))
  have p1 := validateProps_cons hprops
  have p2 := validateProps_cons p1.2
  have p3 := validateProps_cons p2.2
  obtain ⟨cls, rfl, hnil, hall⟩ := classes_sound (p3.1 vc hvc)
  exact ⟨nkvs, rfl, cls, hvc, hnil, hall⟩

theorem chapitre_sound {v : Json} (h : validate chapitreSchema v = true) :
    ∃ ckvs, v = .obj ckvs ∧
      ∃ ns, lookupJO "notions" ckvs = some (.arr ns) ∧
        ∀ nt ∈ ns.toList, ∃ nkvs, nt = .obj nkvs ∧
          ∃ cls, lookupJO "classes" nkvs = some (.arr cls) ∧
            cls.toList ≠ [] ∧
            ∀ c ∈ cls.toList, c = .str "4e" ∨ c = .str "3e" ∨ c = .str "5e" := by
  rw [chapitreSchema] at h
  obtain ⟨ckvs, rfl, hreq, hprops⟩ := validate_obj h
  obtain ⟨vn, hvn⟩ := Option.isSome_iff_exists.mp (hreq "notions" (by simp))
  have p1 := validateProps_cons hprops
  have p2 := validateProps_cons p1.2
  obtain ⟨ns, rfl, hitems, _⟩ := validate_arr (p2.1 vn hvn)
  refine ⟨ckvs, rfl, ns, hvn, ?_⟩
  intro nt hnt
  exact notion_sound (validateItems_sound hitems nt hnt)

theorem programme_sound {v : Json} (h : validate programmeSchema v = true) :
    PinnedProgramme v := by
  rw [programmeSchema] at h
  obtain ⟨kvs, rfl, hreq, hprops⟩ := validate_obj h
  obtain ⟨vm, hvm⟩ := Option.isSome_iff_exists.mp (hreq "matiere" (by simp))
  obtain ⟨vcy, hvcy⟩ := Option.isSome_iff_exists.mp (hreq "cycle" (by simp))
  obtain ⟨vch, hvch⟩ := Option.isSome_iff_exists.mp (hreq "chapitres" (by simp))
  have p1 := validateProps_cons hprops
  have p2 := validateProps_cons p1.2
  have p3 := validateProps_cons p2.2
  obtain ⟨sm, rfl, hsm⟩ := validate_strEnum (p1.1 vm hvm)
  obtain ⟨scy, rfl, hscy⟩ := validate_strEnum (p2.1 vcy hvcy)
  obtain ⟨chs, rfl, hitems, _⟩ := validate_arr (p3.1 vch hvch)
  have hsm2 : sm = "SVT" := by simpa using hsm
  have hscy2 : scy = "cycle 4" := by simpa using hscy
  subst hsm2
  subst hscy2
  refine ⟨kvs, rfl, hvm, hvcy, chs, hvch, ?_⟩
  intro ch hch
  exact chapitre_sound (validateItems_sound hitems ch hch)

/-! Shape of a run in each of the five possible outcomes. -/

theorem script_shape_noenv (env : Env) (argv : List String) (fs0 : FS) (svc : Service)
    (h : env.OPENAI_API_KEY = none ∨ env.PDF_PATH = none) :
    script env argv fs0 svc = ⟨[], fs0, some .runtimeError⟩ := by
  rcases env with ⟨k, p⟩
  rcases h with h | h <;> simp only at h <;> subst h
  · simp [script]
  · cases k <;> simp [script]

theorem script_shape_nofile (key pdf_path : String) (argv : List String)
    (fs0 : FS) (svc : Service)
    (h : lookupFile fs0.files pdf_path = none) :
    script ⟨some key, some pdf_path⟩ argv fs0 svc =
      ⟨[], fs0, some (.fileNotFoundError pdf_path)⟩ := by
  simp [script, upload_pdf, os_path_isfile, h]

theorem script_shape_upfail (key pdf_path content : String) (argv : List String)
    (fs0 : FS) (svc : Service) (e : PyErr)
    (hfile : lookupFile fs0.files pdf_path = some content)
    (hup : svc.filesCreate content = .error e) :
    script ⟨some key, some pdf_path⟩ argv fs0 svc =
      ⟨[.openR pdf_path, .filesCreate content], fs0, some e⟩ := by
  simp [script, upload_pdf, os_path_isfile, hfile, hup]

theorem script_shape_failA (key pdf_path content fid : String) (argv : List String)
    (fs0 : FS) (svc : Service) (e : PyErr)
    (hfile : lookupFile fs0.files pdf_path = some content)
    (hup : svc.filesCreate content = .ok fid)
    (hA : svc.chatCreate (requestA fid) = .error e) :
    script ⟨some key, some pdf_path⟩ argv fs0 svc =
      ⟨[.openR pdf_path, .filesCreate content, .chatCreate (requestA fid)],
       fs0, some e⟩ := by
  simp [script, upload_pdf, os_path_isfile, hfile, hup,
        call_gpt4_1_json_mode, hA]

theorem script_shape_failB (key pdf_path content fid : String) (argv : List String)
    (fs0 : FS) (svc : Service) (cA : Json) (e : PyErr)
    (hfile : lookupFile fs0.files pdf_path = some content)
    (hup : svc.filesCreate content = .ok fid)
    (hA : svc.chatCreate (requestA fid) = .ok cA)
    (hB : svc.chatCreate (requestB fid) = .error e) :
    script ⟨some key, some pdf_path⟩ argv fs0 svc =
      ⟨[.openR pdf_path, .filesCreate content,
        .chatCreate (requestA fid), .openW (out1_of pdf_path) "utf-8",
        .write (out1_of pdf_path) (json_dump cA),
        .chatCreate (requestB fid)],
       writeFS fs0 (out1_of pdf_path) (json_dump cA), some e⟩ := by
  simp [script, upload_pdf, os_path_isfile, hfile, hup,
        call_gpt4_1_json_mode, hA, call_gpt4o_structured, hB]

theorem script_shape_ok (key pdf_path content fid : String) (argv : List String)
    (fs0 : FS) (svc : Service) (cA cB : Json)
    (hfile : lookupFile fs0.files pdf_path = some content)
    (hup : svc.filesCreate content = .ok fid)
    (hA : svc.chatCreate (requestA fid) = .ok cA)
    (hB : svc.chatCreate (requestB fid) = .ok cB) :
    script ⟨some key, some pdf_path⟩ argv fs0 svc =
      ⟨[.openR pdf_path, .filesCreate content,
        .chatCreate (requestA fid), .openW (out1_of pdf_path) "utf-8",
        .write (out1_of pdf_path) (json_dump cA),
        .chatCreate (requestB fid), .openW (out2_of pdf_path) "utf-8",
        .write (out2_of pdf_path) (json_dump cB)],
       writeFS (writeFS fs0 (out1_of pdf_path) (json_dump cA))
         (out2_of pdf_path) (json_dump cB), none⟩ := by
  simp [script, upload_pdf, os_path_isfile, hfile, hup,
        call_gpt4_1_json_mode, hA, call_gpt4o_structured, hB]

/-- Contents of the two output files after a fully successful run (shared
helper). -/
theorem script_ok_file_contents (key pdf_path content fid : String)
    (argv : List String) (fs0 : FS) (svc : Service) (cA cB : Json)
    (hfile : lookupFile fs0.files pdf_path = some content)
    (hup : svc.filesCreate content = .ok fid)
    (hA : svc.chatCreate (requestA fid) = .ok cA)
    (hB : svc.chatCreate (requestB fid) = .ok cB) :
    (script ⟨some key, some pdf_path⟩ argv fs0 svc).err = none ∧
    lookupFile (script ⟨some key, some pdf_path⟩ argv fs0 svc).fs.files
      (out1_of pdf_path) = some (json_dump cA) ∧
    lookupFile (script ⟨some key, some pdf_path⟩ argv fs0 svc).fs.files
      (out2_of pdf_path) = some (json_dump cB) := by
  rw [script_shape_ok key pdf_path content fid argv fs0 svc cA cB hfile hup hA hB]
  refine ⟨rfl, ?_, ?_⟩
  · rw [lookupFile_writeFS, lookupFile_writeFS]
    simp [out1_ne_out2 pdf_path]
  · rw [lookupFile_writeFS]
    simp

/-! The claims. -/

/-- C1, counterexample: with a stub service failing Call A (a
`ServiceError`; any exception behaves alike, there being no handler) and
succeeding on Call B, the run stops at Call A: Call B is never attempted —
the trace ends at the Call A request — and no Call B output file is
written, refuting "a failure of Call A does not prevent Call B from being
attempted". -/
theorem c1_counterexample :
    (stubService (.error (.serviceError "boom")) (.ok (.obj .nil))).chatCreate
        (requestB "file-1") = .ok (.obj .nil) ∧
    (script ⟨some "sk-test", some "prog.pdf"⟩ [] ⟨[("prog.pdf", "PDFBYTES")], []⟩
        (stubService (.error (.serviceError "boom")) (.ok (.obj .nil)))).err =
      some (.serviceError "boom") ∧
    (script ⟨some "sk-test", some "prog.pdf"⟩ [] ⟨[("prog.pdf", "PDFBYTES")], []⟩
        (stubService (.error (.serviceError "boom")) (.ok (.obj .nil)))).trace =
      [.openR "prog.pdf", .filesCreate "PDFBYTES", .chatCreate (requestA "file-1")] ∧
    lookupFile (script ⟨some "sk-test", some "prog.pdf"⟩ []
        ⟨[("prog.pdf", "PDFBYTES")], []⟩
        (stubService (.error (.serviceError "boom")) (.ok (.obj .nil)))).fs.files
      (out2_of "prog.pdf") = none :=
  ⟨rfl, rfl, rfl, rfl⟩

/-- C1 (amended): the two calls are sequential and unguarded, so a failure
of Call A aborts the run before Call B is attempted (no Call B request is
issued and the Call B output path is untouched); in the other direction a
failure of Call B does not retract Call A's already-persisted output
file.  Errors are reported in the run result, not masked. -/
theorem c1_failA_blocks_callB (key pdf_path content fid : String)
    (argv : List String) (fs0 : FS) (svc : Service)
    (hfile : lookupFile fs0.files pdf_path = some content)
    (hup : svc.filesCreate content = .ok fid) :
    (∀ e, svc.chatCreate (requestA fid) = .error e →
      (script ⟨some key, some pdf_path⟩ argv fs0 svc).err = some e ∧
      Event.chatCreate (requestB fid) ∉
        (script ⟨some key, some pdf_path⟩ argv fs0 svc).trace ∧
      lookupFile (script ⟨some key, some pdf_path⟩ argv fs0 svc).fs.files
        (out2_of pdf_path) = lookupFile fs0.files (out2_of pdf_path)) ∧
    (∀ cA e, svc.chatCreate (requestA fid) = .ok cA →
      svc.chatCreate (requestB fid) = .error e →
      (script ⟨some key, some pdf_path⟩ argv fs0 svc).err = some e ∧
      lookupFile (script ⟨some key, some pdf_path⟩ argv fs0 svc).fs.files
        (out1_of pdf_path) = some (json_dump cA)) := by
  constructor
  · intro e hA
    rw [script_shape_failA key pdf_path content fid argv fs0 svc e hfile hup hA]
    refine ⟨rfl, ?_, rfl⟩
    intro hmem
    simp only [List.mem_cons, List.not_mem_nil, or_false] at hmem
    rcases hmem with h | h | h
    · cases h
    · cases h
    · have : requestB fid = requestA fid := by
        injection h
      have hm := congrArg ChatRequest.model this
      simp [requestA, requestB] at hm
  · intro cA e hA hB
    rw [script_shape_failB key pdf_path content fid argv fs0 svc cA e hfile hup hA hB]
    refine ⟨rfl, ?_⟩
    rw [lookupFile_writeFS]
    simp

/-- C1, witness: the amended theorem applied to the concrete stub of the
counterexample. -/
theorem c1_witness :
    (script ⟨some "sk-test", some "prog.pdf"⟩ [] ⟨[("prog.pdf", "PDFBYTES")], []⟩
        (stubService (.error (.serviceError "boom")) (.ok (.obj .nil)))).err =
      some (.serviceError "boom") ∧
    Event.chatCreate (requestB "file-1") ∉
      (script ⟨some "sk-test", some "prog.pdf"⟩ [] ⟨[("prog.pdf", "PDFBYTES")], []⟩
        (stubService (.error (.serviceError "boom")) (.ok (.obj .nil)))).trace ∧
    lookupFile (script ⟨some "sk-test", some "prog.pdf"⟩ []
        ⟨[("prog.pdf", "PDFBYTES")], []⟩
        (stubService (.error (.serviceError "boom")) (.ok (.obj .nil)))).fs.files
      (out2_of "prog.pdf") =
        lookupFile (⟨[("prog.pdf", "PDFBYTES")], []⟩ : FS).files (out2_of "prog.pdf") :=
  (c1_failA_blocks_callB "sk-test" "prog.pdf" "PDFBYTES" "file-1" []
      ⟨[("prog.pdf", "PDFBYTES")], []⟩
      (stubService (.error (.serviceError "boom")) (.ok (.obj .nil)))
      rfl rfl).1 (.serviceError "boom") rfl

/-- C2, counterexample: the writer performs no parse step.  With a stub
returning the raw JSON text `"\x7b\x7d"` (whose parsed value is the empty
object) on both calls, both files are created, but the Call A file
contains `json.dump` of the raw text — a JSON *string* — so decoding the
file yields the string, not the parsed empty object, refuting "each
contains exactly the parsed structured value the service returned". -/
theorem c2_counterexample :
    parseJson "\x7b\x7d" = some (.obj .nil) ∧
    (script ⟨some "sk-test", some "prog.pdf"⟩ [] ⟨[("prog.pdf", "PDFBYTES")], []⟩
        (stubService (.ok (.str "\x7b\x7d")) (.ok (.str "\x7b\x7d")))).err = none ∧
    lookupFile (script ⟨some "sk-test", some "prog.pdf"⟩ []
        ⟨[("prog.pdf", "PDFBYTES")], []⟩
        (stubService (.ok (.str "\x7b\x7d")) (.ok (.str "\x7b\x7d")))).fs.files
      (out1_of "prog.pdf") = some (json_dump (.str "\x7b\x7d")) ∧
    parseJson (json_dump (.str "\x7b\x7d")) = some (.str "\x7b\x7d") ∧
    Json.str "\x7b\x7d" ≠ Json.obj .nil :=
  ⟨rfl, rfl, rfl, rfl, by simp⟩

/-- C2 (amended): when the service succeeds on both calls, both output
files are created, and each contains `json.dump` of the Python value the
service returned for that call, written verbatim with no parse step: a
raw-text response is therefore persisted as a JSON string, not as the
value the text denotes. -/
theorem c2_files_contain_dumped_content (key pdf_path content fid : String)
    (argv : List String) (fs0 : FS) (svc : Service) (cA cB : Json)
    (hfile : lookupFile fs0.files pdf_path = some content)
    (hup : svc.filesCreate content = .ok fid)
    (hA : svc.chatCreate (requestA fid) = .ok cA)
    (hB : svc.chatCreate (requestB fid) = .ok cB) :
    (script ⟨some key, some pdf_path⟩ argv fs0 svc).err = none ∧
    lookupFile (script ⟨some key, some pdf_path⟩ argv fs0 svc).fs.files
      (out1_of pdf_path) = some (json_dump cA) ∧
    lookupFile (script ⟨some key, some pdf_path⟩ argv fs0 svc).fs.files
      (out2_of pdf_path) = some (json_dump cB) :=
  script_ok_file_contents key pdf_path content fid argv fs0 svc cA cB hfile hup hA hB

/-- C2, witness: the amended theorem at a concrete stub returning one
string and one number. -/
theorem c2_witness :
    (script ⟨some "sk-test", some "prog.pdf"⟩ [] ⟨[("prog.pdf", "PDFBYTES")], []⟩
        (stubService (.ok (.str "hello")) (.ok (.num 5)))).err = none ∧
    lookupFile (script ⟨some "sk-test", some "prog.pdf"⟩ []
        ⟨[("prog.pdf", "PDFBYTES")], []⟩
        (stubService (.ok (.str "hello")) (.ok (.num 5)))).fs.files
      (out1_of "prog.pdf") = some (json_dump (.str "hello")) ∧
    lookupFile (script ⟨some "sk-test", some "prog.pdf"⟩ []
        ⟨[("prog.pdf", "PDFBYTES")], []⟩
        (stubService (.ok (.str "hello")) (.ok (.num 5)))).fs.files
      (out2_of "prog.pdf") = some (json_dump (.num 5)) :=
  c2_files_contain_dumped_content "sk-test" "prog.pdf" "PDFBYTES" "file-1" []
    ⟨[("prog.pdf", "PDFBYTES")], []⟩
    (stubService (.ok (.str "hello")) (.ok (.num 5)))
    (.str "hello") (.num 5) rfl rfl rfl rfl

/-- C3, counterexample: with a stub returning the syntactically invalid
text `"not json"` on Call A (and succeeding on Call B), the run does not
fail at all — there is no `ParseError` anywhere in the code — and a Call A
output file *is* written, containing the invalid text re-encoded as a JSON
string.  This refutes "the run fails with a ParseError ... and no output
file is written for that call". -/
theorem c3_counterexample :
    parseJson "not json" = none ∧
    (script ⟨some "sk-test", some "prog.pdf"⟩ [] ⟨[("prog.pdf", "PDFBYTES")], []⟩
        (stubService (.ok (.str "not json")) (.ok (.obj .nil)))).err = none ∧
    lookupFile (script ⟨some "sk-test", some "prog.pdf"⟩ []
        ⟨[("prog.pdf", "PDFBYTES")], []⟩
        (stubService (.ok (.str "not json")) (.ok (.obj .nil)))).fs.files
      (out1_of "prog.pdf") = some (json_dump (.str "not json")) :=
  ⟨rfl, rfl, rfl⟩

/-- C3 (amended): the code never parses the response as JSON, so a raw
response whose text is not valid JSON raises no error: the run completes
(given the other call also succeeds) and the offending text is written to
the call's output file re-encoded as a JSON string. -/
theorem c3_no_parse_error (key pdf_path content fid raw : String)
    (argv : List String) (fs0 : FS) (svc : Service) (cB : Json)
    (_hraw : parseJson raw = none)
    (hfile : lookupFile fs0.files pdf_path = some content)
    (hup : svc.filesCreate content = .ok fid)
    (hA : svc.chatCreate (requestA fid) = .ok (.str raw))
    (hB : svc.chatCreate (requestB fid) = .ok cB) :
    (script ⟨some key, some pdf_path⟩ argv fs0 svc).err = none ∧
    lookupFile (script ⟨some key, some pdf_path⟩ argv fs0 svc).fs.files
      (out1_of pdf_path) = some (json_dump (.str raw)) := by
  have h := script_ok_file_contents key pdf_path content fid argv fs0 svc
    (.str raw) cB hfile hup hA hB
  exact ⟨h.1, h.2.1⟩

/-- C3, witness: the amended theorem at the concrete invalid-text stub. -/
theorem c3_witness :
    parseJson "oops(" = none ∧
    ((script ⟨some "sk-test", some "prog.pdf"⟩ [] ⟨[("prog.pdf", "PDFBYTES")], []⟩
        (stubService (.ok (.str "oops(")) (.ok (.obj .nil)))).err = none ∧
      lookupFile (script ⟨some "sk-test", some "prog.pdf"⟩ []
          ⟨[("prog.pdf", "PDFBYTES")], []⟩
          (stubService (.ok (.str "oops(")) (.ok (.obj .nil)))).fs.files
        (out1_of "prog.pdf") = some (json_dump (.str "oops("))) :=
  ⟨rfl, c3_no_parse_error "sk-test" "prog.pdf" "PDFBYTES" "file-1" "oops(" []
    ⟨[("prog.pdf", "PDFBYTES")], []⟩
    (stubService (.ok (.str "oops(")) (.ok (.obj .nil)))
    (.obj .nil) rfl rfl rfl rfl rfl⟩

/-- C4, counterexample: with a stub returning the empty object (which
violates the declared schema: all three required fields are missing) on
the schema-constrained call, the run raises no `SchemaError` — no local
validation exists — and the Call B output file *is* written, refuting "the
run fails with a SchemaError ... and no output file is written". -/
theorem c4_counterexample :
    validate programmeSchema (.obj .nil) = false ∧
    (script ⟨some "sk-test", some "prog.pdf"⟩ [] ⟨[("prog.pdf", "PDFBYTES")], []⟩
        (stubService (.ok (.str "ignored")) (.ok (.obj .nil)))).err = none ∧
    lookupFile (script ⟨some "sk-test", some "prog.pdf"⟩ []
        ⟨[("prog.pdf", "PDFBYTES")], []⟩
        (stubService (.ok (.str "ignored")) (.ok (.obj .nil)))).fs.files
      (out2_of "prog.pdf") = some (json_dump (.obj .nil)) :=
  ⟨by simp [validate, programmeSchema, lookupJO], rfl, rfl⟩

/-- C4 (amended): the caller performs no local schema validation.  The
schema is only attached to the Call B request (its `json_schema` field);
a Call B response value that violates the declared schema is still written
to the Call B output file, and the run completes without any
`SchemaError`. -/
theorem c4_no_local_schema_validation (key pdf_path content fid : String)
    (argv : List String) (fs0 : FS) (svc : Service) (cA cB : Json)
    (_hviol : validate programmeSchema cB = false)
    (hfile : lookupFile fs0.files pdf_path = some content)
    (hup : svc.filesCreate content = .ok fid)
    (hA : svc.chatCreate (requestA fid) = .ok cA)
    (hB : svc.chatCreate (requestB fid) = .ok cB) :
    (requestB fid).json_schema = some programmeSchema ∧
    (script ⟨some key, some pdf_path⟩ argv fs0 svc).err = none ∧
    lookupFile (script ⟨some key, some pdf_path⟩ argv fs0 svc).fs.files
      (out2_of pdf_path) = some (json_dump cB) := by
  have h := script_ok_file_contents key pdf_path content fid argv fs0 svc
    cA cB hfile hup hA hB
  exact ⟨rfl, h.1, h.2.2⟩

/-- C4, witness: the amended theorem at a stub whose Call B response has a
`chapitres` field of the wrong type (and lacks the other required
fields), hence violates the schema. -/
theorem c4_witness :
    validate programmeSchema (.obj (.cons "chapitres" (.num 3) .nil)) = false ∧
    ((requestB "file-1").json_schema = some programmeSchema ∧
      (script ⟨some "sk-test", some "prog.pdf"⟩ [] ⟨[("prog.pdf", "PDFBYTES")], []⟩
          (stubService (.ok (.str "ignored"))
            (.ok (.obj (.cons "chapitres" (.num 3) .nil))))).err = none ∧
      lookupFile (script ⟨some "sk-test", some "prog.pdf"⟩ []
          ⟨[("prog.pdf", "PDFBYTES")], []⟩
          (stubService (.ok (.str "ignored"))
            (.ok (.obj (.cons "chapitres" (.num 3) .nil))))).fs.files
        (out2_of "prog.pdf") =
          some (json_dump (.obj (.cons "chapitres" (.num 3) .nil)))) :=
  ⟨by simp [validate, programmeSchema, lookupJO],
   c4_no_local_schema_validation "sk-test" "prog.pdf" "PDFBYTES" "file-1" []
    ⟨[("prog.pdf", "PDFBYTES")], []⟩
    (stubService (.ok (.str "ignored")) (.ok (.obj (.cons "chapitres" (.num 3) .nil))))
    (.str "ignored") (.obj (.cons "chapitres" (.num 3) .nil))
    (by simp [validate, programmeSchema, lookupJO]) rfl rfl rfl rfl⟩

/-- C5: when the configured path is not a regular file (missing or a
directory), the run raises `FileNotFoundError` (the spec's
`NotFoundError`) from `upload_pdf`'s `os.path.isfile` check, before any
service interaction: the event trace is empty — zero uploads, zero chat
calls, zero writes — and the filesystem is untouched. -/
theorem c5_missing_file_no_network (key pdf_path : String)
    (argv : List String) (fs0 : FS) (svc : Service)
    (h : os_path_isfile fs0 pdf_path = false) :
    (script ⟨some key, some pdf_path⟩ argv fs0 svc).err =
      some (.fileNotFoundError pdf_path) ∧
    (script ⟨some key, some pdf_path⟩ argv fs0 svc).trace = [] ∧
    (script ⟨some key, some pdf_path⟩ argv fs0 svc).fs = fs0 := by
  have h2 : lookupFile fs0.files pdf_path = none := by
    rcases hh : lookupFile fs0.files pdf_path with _ | c
    · rfl
    · rw [os_path_isfile, hh] at h
      simp at h
  rw [script_shape_nofile key pdf_path argv fs0 svc h2]
  exact ⟨rfl, rfl, rfl⟩

/-- C5, witness: a path that exists only as a directory. -/
theorem c5_witness :
    os_path_isfile ⟨[], ["prog.pdf"]⟩ "prog.pdf" = false ∧
    ((script ⟨some "sk-test", some "prog.pdf"⟩ [] ⟨[], ["prog.pdf"]⟩
        (stubService (.ok (.obj .nil)) (.ok (.obj .nil)))).err =
      some (.fileNotFoundError "prog.pdf") ∧
    (script ⟨some "sk-test", some "prog.pdf"⟩ [] ⟨[], ["prog.pdf"]⟩
        (stubService (.ok (.obj .nil)) (.ok (.obj .nil)))).trace = [] ∧
    (script ⟨some "sk-test", some "prog.pdf"⟩ [] ⟨[], ["prog.pdf"]⟩
        (stubService (.ok (.obj .nil)) (.ok (.obj .nil)))).fs =
      (⟨[], ["prog.pdf"]⟩ : FS)) :=
  ⟨rfl, c5_missing_file_no_network "sk-test" "prog.pdf" [] ⟨[], ["prog.pdf"]⟩
    (stubService (.ok (.obj .nil)) (.ok (.obj .nil))) rfl⟩

/-- C6, counterexample: the script never reads its argument vector, so a
command-line argument naming an existing file does not override the
configured path: with `PDF_PATH=a.pdf` configured, `argv = ["b.pdf"]` and
only `b.pdf` present on disk, the run still fails with
`FileNotFoundError` on `a.pdf`, refuting "may be overridden by a
command-line argument". -/
theorem c6_counterexample :
    os_path_isfile ⟨[("b.pdf", "PDFBYTES")], []⟩ "b.pdf" = true ∧
    (script ⟨some "sk-test", some "a.pdf"⟩ ["b.pdf"] ⟨[("b.pdf", "PDFBYTES")], []⟩
        (stubService (.ok (.obj .nil)) (.ok (.obj .nil)))).err =
      some (.fileNotFoundError "a.pdf") :=
  ⟨rfl, rfl⟩

/-- C6 (amended): the source-document path comes only from the
environment configuration; there is no command-line override (the run is
entirely independent of the argument vector).  When the API credential or
the path is missing, the run fails at startup with `RuntimeError` (the
spec's `ConfigError`), before any filesystem or network activity. -/
theorem c6_config_only_no_cli_override (env : Env) (fs0 : FS) (svc : Service) :
    (∀ argv1 argv2, script env argv1 fs0 svc = script env argv2 fs0 svc) ∧
    ((env.OPENAI_API_KEY = none ∨ env.PDF_PATH = none) →
      (script env [] fs0 svc).err = some .runtimeError ∧
      (script env [] fs0 svc).trace = [] ∧
      (script env [] fs0 svc).fs = fs0) := by
  constructor
  · intro argv1 argv2
    rfl
  · intro h
    rw [script_shape_noenv env [] fs0 svc h]
    exact ⟨rfl, rfl, rfl⟩

/-- C6, witness: a configuration with the credential missing, and two
concrete argument vectors the run cannot distinguish. -/
theorem c6_witness :
    script ⟨none, some "prog.pdf"⟩ ["cli.pdf"] ⟨[("prog.pdf", "PDFBYTES")], []⟩
        (stubService (.ok (.obj .nil)) (.ok (.obj .nil))) =
      script ⟨none, some "prog.pdf"⟩ [] ⟨[("prog.pdf", "PDFBYTES")], []⟩
        (stubService (.ok (.obj .nil)) (.ok (.obj .nil))) ∧
    ((script ⟨none, some "prog.pdf"⟩ [] ⟨[("prog.pdf", "PDFBYTES")], []⟩
        (stubService (.ok (.obj .nil)) (.ok (.obj .nil)))).err =
      some .runtimeError ∧
    (script ⟨none, some "prog.pdf"⟩ [] ⟨[("prog.pdf", "PDFBYTES")], []⟩
        (stubService (.ok (.obj .nil)) (.ok (.obj .nil)))).trace = [] ∧
    (script ⟨none, some "prog.pdf"⟩ [] ⟨[("prog.pdf", "PDFBYTES")], []⟩
        (stubService (.ok (.obj .nil)) (.ok (.obj .nil)))).fs =
      (⟨[("prog.pdf", "PDFBYTES")], []⟩ : FS)) :=
  ⟨(c6_config_only_no_cli_override ⟨none, some "prog.pdf"⟩
      ⟨[("prog.pdf", "PDFBYTES")], []⟩
      (stubService (.ok (.obj .nil)) (.ok (.obj .nil)))).1 ["cli.pdf"] [],
   (c6_config_only_no_cli_override ⟨none, some "prog.pdf"⟩
      ⟨[("prog.pdf", "PDFBYTES")], []⟩
      (stubService (.ok (.obj .nil)) (.ok (.obj .nil)))).2 (Or.inl rfl)⟩

/-- C7: on a fully successful run each result is written, UTF-8 encoded
and `indent=2` pretty-printed, to the deterministic path derived from the
source document's base name plus a call-identifying suffix
(`<base>_gpt4-1_jsonmode.json` for Call A, `<base>_gpt4o_structured.json`
for Call B); the two paths always differ, and the conclusions hold for
every starting filesystem, so an existing file at either path is silently
overwritten.  The last conjunct exhibits the indentation `json.dump`
applies. -/
theorem c7_output_paths (key pdf_path content fid : String)
    (argv : List String) (fs0 : FS) (svc : Service) (cA cB : Json)
    (hfile : lookupFile fs0.files pdf_path = some content)
    (hup : svc.filesCreate content = .ok fid)
    (hA : svc.chatCreate (requestA fid) = .ok cA)
    (hB : svc.chatCreate (requestB fid) = .ok cB) :
    (script ⟨some key, some pdf_path⟩ argv fs0 svc).err = none ∧
    out1_of pdf_path ≠ out2_of pdf_path ∧
    lookupFile (script ⟨some key, some pdf_path⟩ argv fs0 svc).fs.files
      (out1_of pdf_path) = some (json_dump cA) ∧
    lookupFile (script ⟨some key, some pdf_path⟩ argv fs0 svc).fs.files
      (out2_of pdf_path) = some (json_dump cB) ∧
    Event.openW (out1_of pdf_path) "utf-8" ∈
      (script ⟨some key, some pdf_path⟩ argv fs0 svc).trace ∧
    Event.openW (out2_of pdf_path) "utf-8" ∈
      (script ⟨some key, some pdf_path⟩ argv fs0 svc).trace ∧
    json_dump (.obj (.cons "matiere" (.str "SVT") .nil)) =
      "\x7b\n  \"matiere\": \"SVT\"\n\x7d" := by
  have h := script_ok_file_contents key pdf_path content fid argv fs0 svc cA cB
    hfile hup hA hB
  refine ⟨h.1, out1_ne_out2 pdf_path, h.2.1, h.2.2, ?_, ?_, by decide⟩ <;>
    rw [script_shape_ok key pdf_path content fid argv fs0 svc cA cB hfile hup hA hB] <;>
    simp

/-- C7, witness: a starting filesystem that already holds stale files at
both output paths; the run silently overwrites them. -/
theorem c7_witness :
    lookupFile (⟨[("prog.pdf", "PDFBYTES"),
        ("prog_gpt4-1_jsonmode.json", "stale1"),
        ("prog_gpt4o_structured.json", "stale2")], []⟩ : FS).files "prog.pdf" =
      some "PDFBYTES" ∧
    ((script ⟨some "sk-test", some "prog.pdf"⟩ []
        ⟨[("prog.pdf", "PDFBYTES"),
          ("prog_gpt4-1_jsonmode.json", "stale1"),
          ("prog_gpt4o_structured.json", "stale2")], []⟩
        (stubService (.ok (.num 1)) (.ok (.num 2)))).err = none ∧
      out1_of "prog.pdf" ≠ out2_of "prog.pdf" ∧
      lookupFile (script ⟨some "sk-test", some "prog.pdf"⟩ []
          ⟨[("prog.pdf", "PDFBYTES"),
            ("prog_gpt4-1_jsonmode.json", "stale1"),
            ("prog_gpt4o_structured.json", "stale2")], []⟩
          (stubService (.ok (.num 1)) (.ok (.num 2)))).fs.files
        (out1_of "prog.pdf") = some (json_dump (.num 1)) ∧
      lookupFile (script ⟨some "sk-test", some "prog.pdf"⟩ []
          ⟨[("prog.pdf", "PDFBYTES"),
            ("prog_gpt4-1_jsonmode.json", "stale1"),
            ("prog_gpt4o_structured.json", "stale2")], []⟩
          (stubService (.ok (.num 1)) (.ok (.num 2)))).fs.files
        (out2_of "prog.pdf") = some (json_dump (.num 2)) ∧
      Event.openW (out1_of "prog.pdf") "utf-8" ∈
        (script ⟨some "sk-test", some "prog.pdf"⟩ []
          ⟨[("prog.pdf", "PDFBYTES"),
            ("prog_gpt4-1_jsonmode.json", "stale1"),
            ("prog_gpt4o_structured.json", "stale2")], []⟩
          (stubService (.ok (.num 1)) (.ok (.num 2)))).trace ∧
      Event.openW (out2_of "prog.pdf") "utf-8" ∈
        (script ⟨some "sk-test", some "prog.pdf"⟩ []
          ⟨[("prog.pdf", "PDFBYTES"),
            ("prog_gpt4-1_jsonmode.json", "stale1"),
            ("prog_gpt4o_structured.json", "stale2")], []⟩
          (stubService (.ok (.num 1)) (.ok (.num 2)))).trace ∧
      json_dump (.obj (.cons "matiere" (.str "SVT") .nil)) =
        "\x7b\n  \"matiere\": \"SVT\"\n\x7d") :=
  ⟨rfl, c7_output_paths "sk-test" "prog.pdf" "PDFBYTES" "file-1" []
    ⟨[("prog.pdf", "PDFBYTES"),
      ("prog_gpt4-1_jsonmode.json", "stale1"),
      ("prog_gpt4o_structured.json", "stale2")], []⟩
    (stubService (.ok (.num 1)) (.ok (.num 2))) (.num 1) (.num 2)
    rfl rfl rfl rfl⟩

/-- C8: both requests fix `temperature` to 0 and `max_tokens` to 8000, and
the caller's own logic is a pure function of its inputs: with a
deterministic stub service, running the pipeline a second time over the
filesystem the first run produced succeeds again and leaves byte-identical
contents at both output paths. -/
theorem c8_idempotent_runs (key pdf_path content fid : String)
    (argv : List String) (fs0 : FS) (svc : Service) (cA cB : Json)
    (hfile : lookupFile fs0.files pdf_path = some content)
    (hup : svc.filesCreate content = .ok fid)
    (hA : svc.chatCreate (requestA fid) = .ok cA)
    (hB : svc.chatCreate (requestB fid) = .ok cB) :
    ((requestA fid).temperature = 0 ∧ (requestB fid).temperature = 0 ∧
     (requestA fid).max_tokens = 8000 ∧ (requestB fid).max_tokens = 8000) ∧
    (script ⟨some key, some pdf_path⟩ argv fs0 svc).err = none ∧
    (script ⟨some key, some pdf_path⟩ argv
      (script ⟨some key, some pdf_path⟩ argv fs0 svc).fs svc).err = none ∧
    lookupFile (script ⟨some key, some pdf_path⟩ argv fs0 svc).fs.files
      (out1_of pdf_path) = some (json_dump cA) ∧
    lookupFile (script ⟨some key, some pdf_path⟩ argv
        (script ⟨some key, some pdf_path⟩ argv fs0 svc).fs svc).fs.files
      (out1_of pdf_path) = some (json_dump cA) ∧
    lookupFile (script ⟨some key, some pdf_path⟩ argv fs0 svc).fs.files
      (out2_of pdf_path) = some (json_dump cB) ∧
    lookupFile (script ⟨some key, some pdf_path⟩ argv
        (script ⟨some key, some pdf_path⟩ argv fs0 svc).fs svc).fs.files
      (out2_of pdf_path) = some (json_dump cB) := by
  have h1 := script_ok_file_contents key pdf_path content fid argv fs0 svc cA cB
    hfile hup hA hB
  have hfile2 : lookupFile (script ⟨some key, some pdf_path⟩ argv fs0 svc).fs.files
      pdf_path = some content := by
    rw [script_shape_ok key pdf_path content fid argv fs0 svc cA cB hfile hup hA hB]
    rw [lookupFile_writeFS, lookupFile_writeFS]
    simp [Ne.symm (out1_ne_pdf pdf_path), Ne.symm (out2_ne_pdf pdf_path), hfile]
  have h2 := script_ok_file_contents key pdf_path content fid argv
    (script ⟨some key, some pdf_path⟩ argv fs0 svc).fs svc cA cB hfile2 hup hA hB
  exact ⟨⟨rfl, rfl, rfl, rfl⟩, h1.1, h2.1, h1.2.1, h2.2.1, h1.2.2, h2.2.2⟩

/-- C8, witness: two consecutive runs with a concrete stub. -/
theorem c8_witness :
    ((requestA "file-1").temperature = 0 ∧ (requestB "file-1").temperature = 0 ∧
     (requestA "file-1").max_tokens = 8000 ∧ (requestB "file-1").max_tokens = 8000) ∧
    (script ⟨some "sk-test", some "prog.pdf"⟩ [] ⟨[("prog.pdf", "PDFBYTES")], []⟩
        (stubService (.ok (.num 1)) (.ok (.num 2)))).err = none ∧
    (script ⟨some "sk-test", some "prog.pdf"⟩ []
        (script ⟨some "sk-test", some "prog.pdf"⟩ [] ⟨[("prog.pdf", "PDFBYTES")], []⟩
          (stubService (.ok (.num 1)) (.ok (.num 2)))).fs
        (stubService (.ok (.num 1)) (.ok (.num 2)))).err = none ∧
    lookupFile (script ⟨some "sk-test", some "prog.pdf"⟩ []
        ⟨[("prog.pdf", "PDFBYTES")], []⟩
        (stubService (.ok (.num 1)) (.ok (.num 2)))).fs.files
      (out1_of "prog.pdf") = some (json_dump (.num 1)) ∧
    lookupFile (script ⟨some "sk-test", some "prog.pdf"⟩ []
        (script ⟨some "sk-test", some "prog.pdf"⟩ [] ⟨[("prog.pdf", "PDFBYTES")], []⟩
          (stubService (.ok (.num 1)) (.ok (.num 2)))).fs
        (stubService (.ok (.num 1)) (.ok (.num 2)))).fs.files
      (out1_of "prog.pdf") = some (json_dump (.num 1)) ∧
    lookupFile (script ⟨some "sk-test", some "prog.pdf"⟩ []
        ⟨[("prog.pdf", "PDFBYTES")], []⟩
        (stubService (.ok (.num 1)) (.ok (.num 2)))).fs.files
      (out2_of "prog.pdf") = some (json_dump (.num 2)) ∧
    lookupFile (script ⟨some "sk-test", some "prog.pdf"⟩ []
        (script ⟨some "sk-test", some "prog.pdf"⟩ [] ⟨[("prog.pdf", "PDFBYTES")], []⟩
          (stubService (.ok (.num 1)) (.ok (.num 2)))).fs
        (stubService (.ok (.num 1)) (.ok (.num 2)))).fs.files
      (out2_of "prog.pdf") = some (json_dump (.num 2)) :=
  c8_idempotent_runs "sk-test" "prog.pdf" "PDFBYTES" "file-1" []
    ⟨[("prog.pdf", "PDFBYTES")], []⟩
    (stubService (.ok (.num 1)) (.ok (.num 2))) (.num 1) (.num 2)
    rfl rfl rfl rfl

/-- C9: the schema attached to the schema-constrained call is the fixed
constant `programmeSchema`, and any value conforming to it necessarily has
`matiere = "SVT"`, `cycle = "cycle 4"`, and in every notion a nonempty
`classes` array drawn from `"4e"`, `"3e"`, `"5e"` only. -/
theorem c9_schema_pins_values (fid : String) (v : Json)
    (h : validate programmeSchema v = true) :
    (requestB fid).json_schema = some programmeSchema ∧ PinnedProgramme v :=
  ⟨rfl, programme_sound h⟩

/-- C9, witness: a concrete conforming value with one chapter and one
notion. -/
theorem c9_witness :
    (requestB "file-1").json_schema = some programmeSchema ∧
    PinnedProgramme (.obj (.cons "matiere" (.str "SVT")
      (.cons "cycle" (.str "cycle 4")
        (.cons "chapitres" (.arr (.cons (.obj
          (.cons "nom_chapitre" (.str "La Terre")
            (.cons "notions" (.arr (.cons (.obj
              (.cons "nom_notion" (.str "Volcanisme")
                (.cons "description" (.str "Etude des volcans")
                  (.cons "classes" (.arr (.cons (.str "4e") .nil))
                    (.cons "prerequis" (.arr .nil) .nil))))) .nil)) .nil)))
          .nil)) .nil)))) :=
  c9_schema_pins_values "file-1" _
    (by simp [validate, validateItems, validateProps, programmeSchema,
              chapitreSchema, notionSchema, classesSchema, lookupJO, JsonList.len])

/-- C10: for any outcome of the service calls, the run's only filesystem
writes (and write-mode opens, always UTF-8) target the two derived output
paths; the only read-mode open is the source PDF; every other path keeps
its previous content; and since neither output path can equal the source
path, the source document itself is never modified.  The configuration is
a pure input (`Env`) that nothing writes to. -/
theorem c10_frame_condition (key pdf_path content : String)
    (argv : List String) (fs0 : FS) (svc : Service)
    (hfile : lookupFile fs0.files pdf_path = some content) :
    (∀ q c, Event.write q c ∈ (script ⟨some key, some pdf_path⟩ argv fs0 svc).trace →
      q = out1_of pdf_path ∨ q = out2_of pdf_path) ∧
    (∀ q enc, Event.openW q enc ∈ (script ⟨some key, some pdf_path⟩ argv fs0 svc).trace →
      (q = out1_of pdf_path ∨ q = out2_of pdf_path) ∧ enc = "utf-8") ∧
    (∀ q, Event.openR q ∈ (script ⟨some key, some pdf_path⟩ argv fs0 svc).trace →
      q = pdf_path) ∧
    (∀ q, q ≠ out1_of pdf_path → q ≠ out2_of pdf_path →
      lookupFile (script ⟨some key, some pdf_path⟩ argv fs0 svc).fs.files q =
        lookupFile fs0.files q) ∧
    lookupFile (script ⟨some key, some pdf_path⟩ argv fs0 svc).fs.files pdf_path =
      some content := by
  rcases hup : svc.filesCreate content with e | fid
  · rw [script_shape_upfail key pdf_path content argv fs0 svc e hfile hup]
    refine ⟨?_, ?_, ?_, ?_, hfile⟩
    · intro q c hmem; simp at hmem
    · intro q enc hmem; simp at hmem
    · intro q hmem; simpa using hmem
    · intro q _ _; rfl
  · rcases hA : svc.chatCreate (requestA fid) with e | cA
    · rw [script_shape_failA key pdf_path content fid argv fs0 svc e hfile hup hA]
      refine ⟨?_, ?_, ?_, ?_, hfile⟩
      · intro q c hmem; simp at hmem
      · intro q enc hmem; simp at hmem
      · intro q hmem; simpa using hmem
      · intro q _ _; rfl
    · rcases hB : svc.chatCreate (requestB fid) with e | cB
      · rw [script_shape_failB key pdf_path content fid argv fs0 svc cA e hfile hup hA hB]
        refine ⟨?_, ?_, ?_, ?_, ?_⟩
        · intro q c hmem
          simp at hmem
          exact Or.inl hmem.1
        · intro q enc hmem
          simp at hmem
          exact ⟨Or.inl hmem.1, hmem.2⟩
        · intro q hmem; simpa using hmem
        · intro q h1 _
          rw [lookupFile_writeFS]
          simp [h1]
        · rw [lookupFile_writeFS]
          simp [Ne.symm (out1_ne_pdf pdf_path), hfile]
      · rw [script_shape_ok key pdf_path content fid argv fs0 svc cA cB hfile hup hA hB]
        refine ⟨?_, ?_, ?_, ?_, ?_⟩
        · intro q c hmem
          simp at hmem
          rcases hmem with ⟨rfl, _⟩ | ⟨rfl, _⟩
          · exact Or.inl rfl
          · exact Or.inr rfl
        · intro q enc hmem
          simp at hmem
          rcases hmem with ⟨rfl, rfl⟩ | ⟨rfl, rfl⟩
          · exact ⟨Or.inl rfl, rfl⟩
          · exact ⟨Or.inr rfl, rfl⟩
        · intro q hmem; simpa using hmem
        · intro q h1 h2
          rw [lookupFile_writeFS, lookupFile_writeFS]
          simp [h1, h2]
        · rw [lookupFile_writeFS, lookupFile_writeFS]
          simp [Ne.symm (out1_ne_pdf pdf_path), Ne.symm (out2_ne_pdf pdf_path), hfile]

/-- C10, witness: at a concrete successful run, an unrelated file and the
source PDF keep their contents, and the read-open in the trace is the PDF
itself. -/
theorem c10_witness :
    lookupFile (script ⟨some "sk-test", some "prog.pdf"⟩ []
        ⟨[("prog.pdf", "PDFBYTES"), ("autre.txt", "notes")], []⟩
        (stubService (.ok (.num 1)) (.ok (.num 2)))).fs.files "autre.txt" =
      lookupFile (⟨[("prog.pdf", "PDFBYTES"), ("autre.txt", "notes")], []⟩ : FS).files
        "autre.txt" ∧
    lookupFile (script ⟨some "sk-test", some "prog.pdf"⟩ []
        ⟨[("prog.pdf", "PDFBYTES"), ("autre.txt", "notes")], []⟩
        (stubService (.ok (.num 1)) (.ok (.num 2)))).fs.files "prog.pdf" =
      some "PDFBYTES" :=
  ⟨(c10_frame_condition "sk-test" "prog.pdf" "PDFBYTES" []
      ⟨[("prog.pdf", "PDFBYTES"), ("autre.txt", "notes")], []⟩
      (stubService (.ok (.num 1)) (.ok (.num 2))) rfl).2.2.2.1 "autre.txt"
      (by decide) (by decide),
   (c10_frame_condition "sk-test" "prog.pdf" "PDFBYTES" []
      ⟨[("prog.pdf", "PDFBYTES"), ("autre.txt", "notes")], []⟩
      (stubService (.ok (.num 1)) (.ok (.num 2))) rfl).2.2.2.2⟩
